import Mathlib

/-!
Verification of the PyCHIP8 CHIP-8 interpreter core (PyCHIP8/cpu.py,
PyCHIP8/screen.py, PyCHIP8/conf.py) against its natural-language
specification.

Shallow embedding conventions:
* Python `bytearray` cells are natural numbers; writes go through
  `bytearrayWrite`, which mirrors Python's checks (IndexError for an index
  past the end, ValueError for a value outside [0, 256)).  Computed values
  that Python produces as signed ints are carried as `Int` up to the write.
* Python exceptions are the `PyErr` error type of the `Except` monad; the
  `KeyError` raised by a failed dictionary lookup is converted by
  `CPU.execute_opcode` into the `UnknownInstructionException` (`Err`),
  exactly as the `try`/`except KeyError` in cpu.py does.
* The pygame surface is modelled at block granularity: every surface access
  in cpu.py goes through `Screen.get_pixel_value`/`Screen.draw_pixel`, which
  read or fill the scale-by-scale block at (x*scale, y*scale), so cell (x,y)
  of `Screen.bitmap` models that block; cell values are palette indices
  (positions in Config.SCREEN_COLORS, 0 or 1).
* Ambient nondeterminism (the `randint` result and the pygame pressed-key
  array) is supplied through an explicit `Input` value.
-/

/-- Constants.NORMAL_MODE / Constants.EXTENDED_MODE from conf.py. -/
inductive Mode where
  | NORMAL
  | EXTENDED
deriving DecidableEq

/-- Python exceptions that the embedded code can raise. -/
inductive PyErr where
  | keyError
  | indexError
  | valueError
  | typeError
deriving DecidableEq

/-- Errors escaping CPU.execute_opcode: the CPU.UnknownInstructionException
(carrying the raw opcode, as in cpu.py) or an uncaught Python exception. -/
inductive Err where
  | unknownInstruction (opcode : Nat)
  | indexError
  | valueError
  | typeError
deriving DecidableEq

/-- Ambient inputs: the randint(0,255) draw used by opcode CXNN and the
pygame key.get_pressed() array, indexed by pygame key code. -/
structure Input where
  rand : Nat
  pressed : Nat → Bool

abbrev M := Except PyErr

namespace Config

def STACK_POINTER : Nat := 0x52

def MAX_MEMORY : Nat := 4096

def PROGRAM_COUNTER : Nat := 0x200

def NUMBER_OF_REGISTERS : Nat := 0x10

def SCREEN_WIDTH_NORMAL : Nat := 64

def SCREEN_HEIGHT_NORMAL : Nat := 32

def SCREEN_WIDTH_EXTENDED : Nat := 128

def SCREEN_HEIGHT_EXTENDED : Nat := 64

/-- KEY_MAPPING from conf.py; the values are the pygame key constants
(K_1 = 49, ..., K_v = 118). -/
def KEY_MAPPING : Nat → Option Nat
  | 0x0 => some 49
  | 0x1 => some 50
  | 0x2 => some 51
  | 0x3 => some 52
  | 0x4 => some 113
  | 0x5 => some 119
  | 0x6 => some 101
  | 0x7 => some 114
  | 0x8 => some 97
  | 0x9 => some 115
  | 0xA => some 100
  | 0xB => some 102
  | 0xC => some 122
  | 0xD => some 120
  | 0xE => some 99
  | 0xF => some 118
  | _ => none

end Config

/-- Read `f[i]` from a bytearray of length `len`; Python raises IndexError
past the end (negative indices cannot arise here: all indices are `Nat`). -/
def bytearrayRead (len : Nat) (f : Nat → Nat) (i : Nat) : M Nat :=
  if i < len then pure (f i) else throw PyErr.indexError

/-- Write `f[i] := val` in a bytearray of length `len`; Python raises
IndexError for an index past the end and ValueError for a value outside
[0, 256). -/
def bytearrayWrite (len : Nat) (f : Nat → Nat) (i : Nat) (val : Int) :
    M (Nat → Nat) :=
  if len ≤ i then throw PyErr.indexError
  else if val < 0 ∨ 256 ≤ val then throw PyErr.valueError
  else pure (fun j => if j = i then val.toNat else f j)

/-- Write to the 16-cell register file `self.v`. -/
def vwrite : (Nat → Nat) → Nat → Int → M (Nat → Nat) :=
  bytearrayWrite Config.NUMBER_OF_REGISTERS

/-- Write to the 4096-cell `self.memory`. -/
def mwrite : (Nat → Nat) → Nat → Int → M (Nat → Nat) :=
  bytearrayWrite Config.MAX_MEMORY

/-- Screen state (screen.py).  `width`/`height` hold Python's `_width` and
`_height`, which the property setters store already multiplied by `scale`.
`bitmap` is the pygame surface at block granularity (see file header). -/
structure Screen where
  mode : Mode
  scale : Nat
  width : Nat
  height : Nat
  bitmap : Nat → Nat → Nat

namespace Screen

/-- Screen.set_according_screen_size: assigns the width/height properties
(whose setters multiply by scale) from the current mode. -/
def set_according_screen_size (s : Screen) : Screen :=
  match s.mode with
  | Mode.NORMAL =>
      { s with width := Config.SCREEN_WIDTH_NORMAL * s.scale,
               height := Config.SCREEN_HEIGHT_NORMAL * s.scale }
  | Mode.EXTENDED =>
      { s with width := Config.SCREEN_WIDTH_EXTENDED * s.scale,
               height := Config.SCREEN_HEIGHT_EXTENDED * s.scale }

/-- Screen.clear: fills the surface with SCREEN_COLORS[0] (palette index 0). -/
def clear (s : Screen) : Screen :=
  { s with bitmap := fun _ _ => 0 }

/-- Screen.__init__: stores mode and scale, sizes width/height from the mode,
creates the surface and clears it. -/
def init (mode : Mode) (scale : Nat) : Screen :=
  clear (set_according_screen_size
    { mode := mode, scale := scale, width := 0, height := 0,
      bitmap := fun _ _ => 0 })

/-- Screen.draw_pixel: draw.rect fills the scale-by-scale block at
(x*scale, y*scale) with the given value (an overwrite, not an XOR). -/
def draw_pixel (s : Screen) (x y pixel : Nat) : Screen :=
  { s with bitmap := fun a b => if a = x ∧ b = y then pixel else s.bitmap a b }

/-- Screen.get_pixel_value: reads the surface at (x*scale, y*scale) and maps
the colour back to its SCREEN_COLORS index. -/
def get_pixel_value (s : Screen) (x y : Nat) : Nat :=
  s.bitmap x y

/-- Screen.disable_extended_screen: only assigns the mode property; it does
not call set_according_screen_size and does not clear the surface. -/
def disable_extended_screen (s : Screen) : Screen :=
  { s with mode := Mode.NORMAL }

/-- Screen.enable_extended_screen: only assigns the mode property; it does
not call set_according_screen_size and does not clear the surface. -/
def enable_extended_screen (s : Screen) : Screen :=
  { s with mode := Mode.EXTENDED }

end Screen

/-- CPU state (cpu.py).  `pc`, `sp`, `i` and the timers are Python ints that
stay non-negative in every execution considered here, so they are carried as
`Nat`. -/
structure CPU where
  screen : Screen
  opcode : Nat
  memory : Nat → Nat
  mode : Mode
  pc : Nat
  sp : Nat
  i : Nat
  v : Nat → Nat
  timer_dt : Nat
  timer_st : Nat
  running : Bool

namespace CPU

/-- CPU.__init__: zeroed memory and registers (Python initialises `v` to an
empty list, replaced by bytearray(16) in reset and never read before that;
the all-zero function stands for it), NORMAL mode, running = False. -/
def init (screen : Screen) : CPU :=
  { screen := screen, opcode := 0, memory := fun _ => 0, mode := Mode.NORMAL,
    pc := 0, sp := 0, i := 0, v := fun _ => 0,
    timer_dt := 0, timer_st := 0, running := false }

/-- CPU.reset: fresh bytearray(16) for v, PC/SP to their configured bases,
I and both timers to 0.  It does not touch `memory` (in particular it
installs no font data) and does not change `running`, `mode` or the screen. -/
def reset (c : CPU) : CPU :=
  { c with v := fun _ => 0, pc := Config.PROGRAM_COUNTER,
           sp := Config.STACK_POINTER, i := 0, timer_dt := 0, timer_st := 0 }

/-- CPU.decrement_values_in_timers. -/
def decrement_values_in_timers (c : CPU) : CPU :=
  let st := if c.timer_st > 0 then c.timer_st - 1 else c.timer_st
  let dt := if c.timer_dt > 0 then c.timer_dt - 1 else c.timer_dt
  { c with timer_st := st, timer_dt := dt }

/-- Opcode 0x00BN (CPU.screen_scroll_up → Screen.scroll_up): Screen.scroll_up
computes `height = self.height / self.scale` (a Python float) and passes it
to range(), which raises TypeError. -/
def screen_scroll_up (_number_of_lines : Nat) (_c : CPU) : M CPU :=
  throw PyErr.typeError

/-- Opcode 0x00CN (CPU.screen_scroll_down → Screen.scroll_down): same
TypeError as scroll_up (range() applied to a float). -/
def screen_scroll_down (_number_of_lines : Nat) (_c : CPU) : M CPU :=
  throw PyErr.typeError

/-- Opcode 0x00E0: CPU.clear_screen. -/
def clear_screen (c : CPU) : M CPU :=
  pure { c with screen := c.screen.clear }

/-- Opcode 0x00EE: CPU.return_from_subroutine.  sp -= 2, then PC is loaded
little-endian from memory[sp+1], memory[sp] (reads in source order). -/
def return_from_subroutine (c : CPU) : M CPU := do
  let sp := c.sp - 2
  let hi ← bytearrayRead Config.MAX_MEMORY c.memory (sp + 1)
  let lo ← bytearrayRead Config.MAX_MEMORY c.memory sp
  pure { c with sp := sp, pc := (hi <<< 8) ||| lo }

/-- Opcode 0x00FB (CPU.screen_scroll_right): calls
`self.screen.scroll_right(self.mode)`, but Screen.scroll_right takes no
argument, so the call itself raises TypeError. -/
def screen_scroll_right (_c : CPU) : M CPU :=
  throw PyErr.typeError

/-- Opcode 0x00FC (CPU.screen_scroll_left): same arity TypeError as
screen_scroll_right. -/
def screen_scroll_left (_c : CPU) : M CPU :=
  throw PyErr.typeError

/-- Opcode 0x00FD: CPU.exit sets running to False and nothing else. -/
def exit (c : CPU) : M CPU :=
  pure { c with running := false }

/-- Opcode 0x00FE: CPU.disable_extended_screen sets the CPU mode flag to
NORMAL and calls Screen.disable_extended_screen (which only sets the screen
mode flag). -/
def disable_extended_screen (c : CPU) : M CPU :=
  pure { c with mode := Mode.NORMAL,
                screen := c.screen.disable_extended_screen }

/-- Opcode 0x00FF: CPU.enable_extended_screen sets the CPU mode flag to
EXTENDED and calls Screen.enable_extended_screen (which only sets the screen
mode flag). -/
def enable_extended_screen (c : CPU) : M CPU :=
  pure { c with mode := Mode.EXTENDED,
                screen := c.screen.enable_extended_screen }

/-- Opcode 0x1NNN: CPU.jump_to_address. -/
def jump_to_address (c : CPU) : M CPU :=
  pure { c with pc := c.opcode &&& 0x0FFF }

/-- Opcode 0x2NNN: CPU.jump_to_subroutine, line for line:
memory[sp] = pc & 0xFF; pc += 1; memory[sp] = (pc & 0xFF00) >> 8 (same cell
again — sp is never changed); pc += 1; pc = NNN. -/
def jump_to_subroutine (c : CPU) : M CPU := do
  let m1 ← mwrite c.memory c.sp ((((c.pc &&& 0x00FF) : Nat) : Int))
  let c := { c with memory := m1, pc := c.pc + 1 }
  let m2 ← mwrite c.memory c.sp (((((c.pc &&& 0xFF00) >>> 8) : Nat) : Int))
  let c := { c with memory := m2, pc := c.pc + 1 }
  pure { c with pc := c.opcode &&& 0x0FFF }

/-- Opcode 0x3XNN: CPU.skip_if_register_equals_value. -/
def skip_if_register_equals_value (c : CPU) : M CPU :=
  let x := (c.opcode &&& 0x0F00) >>> 8
  if c.v x = c.opcode &&& 0x00FF then pure { c with pc := c.pc + 2 }
  else pure c

/-- Opcode 0x4XNN: CPU.skip_if_register_not_equals_value. -/
def skip_if_register_not_equals_value (c : CPU) : M CPU :=
  let x := (c.opcode &&& 0x0F00) >>> 8
  if c.v x ≠ c.opcode &&& 0x00FF then pure { c with pc := c.pc + 2 }
  else pure c

/-- Opcode 0x5XY0: CPU.skip_if_register_equal_other_register. -/
def skip_if_register_equal_other_register (c : CPU) : M CPU :=
  let x := (c.opcode &&& 0x0F00) >>> 8
  let y := (c.opcode &&& 0x00F0) >>> 4
  if c.v x = c.v y then pure { c with pc := c.pc + 2 } else pure c

/-- Opcode 0x6XNN: CPU.move_value_to_register. -/
def move_value_to_register (c : CPU) : M CPU := do
  let x := (c.opcode &&& 0x0F00) >>> 8
  let v1 ← vwrite c.v x ((((c.opcode &&& 0x00FF) : Nat) : Int))
  pure { c with v := v1 }

/-- Opcode 0x7XNN: CPU.add_value_to_register (`self.v[x] += NN`; the
bytearray store raises ValueError when the sum exceeds 255). -/
def add_value_to_register (c : CPU) : M CPU := do
  let x := (c.opcode &&& 0x0F00) >>> 8
  let v1 ← vwrite c.v x ((((c.v x + (c.opcode &&& 0x00FF)) : Nat) : Int))
  pure { c with v := v1 }

/-- Opcode 0x8XY0: CPU.move_register_to_register. -/
def move_register_to_register (c : CPU) : M CPU := do
  let x := (c.opcode &&& 0x0F00) >>> 8
  let y := (c.opcode &&& 0x00F0) >>> 4
  let v1 ← vwrite c.v x ((((c.v y) : Nat) : Int))
  pure { c with v := v1 }

/-- Opcode 0x8XY1: CPU.register_logical_or_register. -/
def register_logical_or_register (c : CPU) : M CPU := do
  let x := (c.opcode &&& 0x0F00) >>> 8
  let y := (c.opcode &&& 0x00F0) >>> 4
  let v1 ← vwrite c.v x ((((c.v x ||| c.v y) : Nat) : Int))
  pure { c with v := v1 }

/-- Opcode 0x8XY2: CPU.register_logical_and_register. -/
def register_logical_and_register (c : CPU) : M CPU := do
  let x := (c.opcode &&& 0x0F00) >>> 8
  let y := (c.opcode &&& 0x00F0) >>> 4
  let v1 ← vwrite c.v x ((((c.v x &&& c.v y) : Nat) : Int))
  pure { c with v := v1 }

/-- Opcode 0x8XY3: CPU.register_logical_xor_register. -/
def register_logical_xor_register (c : CPU) : M CPU := do
  let x := (c.opcode &&& 0x0F00) >>> 8
  let y := (c.opcode &&& 0x00F0) >>> 4
  let v1 ← vwrite c.v x ((((c.v x ^^^ c.v y) : Nat) : Int))
  pure { c with v := v1 }

/-- Opcode 0x8XY4: CPU.add_register_to_register.  sum = v[x] + v[y]; on
overflow v[x] = sum - 256 and VF = 1, otherwise v[x] = sum and VF = 0. -/
def add_register_to_register (c : CPU) : M CPU := do
  let x := (c.opcode &&& 0x0F00) >>> 8
  let y := (c.opcode &&& 0x00F0) >>> 4
  let sum := c.v x + c.v y
  if sum > 255 then do
    let v1 ← vwrite c.v x ((((sum : Nat) : Int)) - 256)
    let v2 ← vwrite v1 0xF 1
    pure { c with v := v2 }
  else do
    let v1 ← vwrite c.v x ((((sum : Nat) : Int)))
    let v2 ← vwrite v1 0xF 0
    pure { c with v := v2 }

/-- Opcode 0x8XY5: CPU.subtract_register_from_register.  The comparison is
strict (`v[x] > v[y]`); the else branch computes
`v[x] - (v[y] - 256) = v[x] - v[y] + 256` as a Python int and stores it
(at v[x] = v[y] that value is 256, which the bytearray store rejects). -/
def subtract_register_from_register (c : CPU) : M CPU := do
  let x := (c.opcode &&& 0x0F00) >>> 8
  let y := (c.opcode &&& 0x00F0) >>> 4
  if c.v x > c.v y then do
    let v1 ← vwrite c.v x ((((c.v x) : Nat) : Int) - (((c.v y) : Nat) : Int))
    let v2 ← vwrite v1 0xF 1
    pure { c with v := v2 }
  else do
    let v1 ← vwrite c.v x
      ((((c.v x) : Nat) : Int) - ((((c.v y) : Nat) : Int) - 256))
    let v2 ← vwrite v1 0xF 0
    pure { c with v := v2 }

/-- Opcode 0x8XY6: CPU.shift_register_right.  VF is written first, then v[x]
is re-read (so for x = 0xF the shift sees the new flag, as in Python). -/
def shift_register_right (c : CPU) : M CPU := do
  let x := (c.opcode &&& 0x0F00) >>> 8
  let v1 ← vwrite c.v 0xF ((((c.v x &&& 0x1) : Nat) : Int))
  let v2 ← vwrite v1 x ((((v1 x >>> 1) : Nat) : Int))
  pure { c with v := v2 }

/-- Opcode 0x8XY7: CPU.negative_subtract_register_from_register (strict
comparison; the else branch stores v[y] + 256 - v[x]). -/
def negative_subtract_register_from_register (c : CPU) : M CPU := do
  let x := (c.opcode &&& 0x0F00) >>> 8
  let y := (c.opcode &&& 0x00F0) >>> 4
  if c.v y > c.v x then do
    let v1 ← vwrite c.v x ((((c.v y) : Nat) : Int) - (((c.v x) : Nat) : Int))
    let v2 ← vwrite v1 0xF 1
    pure { c with v := v2 }
  else do
    let v1 ← vwrite c.v x
      ((((c.v y) : Nat) : Int) + 256 - (((c.v x) : Nat) : Int))
    let v2 ← vwrite v1 0xF 0
    pure { c with v := v2 }

/-- Opcode 0x8XYE: CPU.shift_register_left, line for line:
v[0xF] = (v[x] & 0x80) >> 8  (the shift is by 8, so the flag is always 0);
v[x] = v[x] << 1  (unmasked — the bytearray store raises ValueError
whenever v[x] ≥ 128).  VF is written first, then v[x] is re-read. -/
def shift_register_left (c : CPU) : M CPU := do
  let x := (c.opcode &&& 0x0F00) >>> 8
  let v1 ← vwrite c.v 0xF (((((c.v x &&& 0x80) >>> 8) : Nat) : Int))
  let v2 ← vwrite v1 x ((((v1 x <<< 1) : Nat) : Int))
  pure { c with v := v2 }

/-- Opcode 0x9XY0: CPU.skip_if_register_not_equal_other_register. -/
def skip_if_register_not_equal_other_register (c : CPU) : M CPU :=
  let x := (c.opcode &&& 0x0F00) >>> 8
  let y := (c.opcode &&& 0x00F0) >>> 4
  if c.v x ≠ c.v y then pure { c with pc := c.pc + 2 } else pure c

/-- Opcode 0xANNN: CPU.move_value_to_index. -/
def move_value_to_index (c : CPU) : M CPU :=
  pure { c with i := c.opcode &&& 0x0FFF }

/-- Opcode 0xBNNN: CPU.jump_to_address_plus_v_zero. -/
def jump_to_address_plus_v_zero (c : CPU) : M CPU :=
  pure { c with pc := c.v 0 + (c.opcode &&& 0x0FFF) }

/-- Opcode 0xCXNN: CPU.generate_random_number; the randint(0,255) result is
the ambient `inp.rand`. -/
def generate_random_number (inp : Input) (c : CPU) : M CPU := do
  let x := (c.opcode &&& 0x0F00) >>> 8
  let v1 ← vwrite c.v x (((((c.opcode &&& 0x00FF) &&& inp.rand) : Nat) : Int))
  pure { c with v := v1 }

end CPU

/-- Digit k (from the left) of `bin(m)[2:].zfill(8)` for a bytearray cell
m < 256: that string has exactly 8 characters and character k is bit
(7 - k) of m; `none` models the IndexError Python raises when k is past the
end of the string. -/
def binZfill8Digit (m k : Nat) : Option Nat :=
  if k < 8 then some ((m >>> (7 - k)) % 2) else none

/-- Loop combinator for Python `for idx in range(n)` over CPU state. -/
def rangeFoldM (n : Nat) (f : Nat → CPU → M CPU) (c : CPU) : M CPU :=
  (List.range n).foldlM (fun acc k => f k acc) c

namespace CPU

/-- Opcode 0xDXYN: CPU.draw_sprite, line for line.  Note the source uses the
opcode fields x and y directly as coordinates (it never reads v[x]/v[y]),
reads the sprite byte at memory[i + row + b], reduces coordinates modulo the
scaled screen width/height, and — decisively — indexes the 8-character bit
string by the screen column x_pos (`pixels[x_pos]`), which raises IndexError
whenever x_pos ≥ 8.  The collision test sets VF whenever the sprite bit
equals the current pixel, and draw_pixel overwrites (no XOR).  The final
screen.refresh() only flips the display and is stateless here. -/
def draw_sprite (c : CPU) : M CPU := do
  let x := (c.opcode &&& 0x0F00) >>> 8
  let y := (c.opcode &&& 0x00F0) >>> 4
  let n := c.opcode &&& 0x000F
  let v0 ← vwrite c.v 0xF 0
  let c := { c with v := v0 }
  let num_of_bytes := if c.mode = Mode.EXTENDED then 2 else 1
  rangeFoldM n (fun horizontal_line_num c =>
    rangeFoldM num_of_bytes (fun b c => do
      let pixels ← bytearrayRead Config.MAX_MEMORY c.memory
        (c.i + horizontal_line_num + b)
      let y_pos := (y + horizontal_line_num) % c.screen.height
      rangeFoldM 8 (fun vertical_line_num c => do
        let x_pos := (x + vertical_line_num + b * 8) % c.screen.width
        let pixel ← match binZfill8Digit pixels x_pos with
          | some d => pure d
          | none => throw PyErr.indexError
        let current_pixel := c.screen.get_pixel_value x_pos y_pos
        let c ← if pixel = current_pixel then do
            let v1 ← vwrite c.v 0xF 1
            pure { c with v := v1 }
          else pure c
        pure { c with screen := c.screen.draw_pixel x_pos y_pos pixel }) c) c) c

/-- Opcode 0xEX9E: CPU.skip_if_key_is_pressed.  A v[x] outside the
KEY_MAPPING table raises KeyError (which execute_opcode then converts). -/
def skip_if_key_is_pressed (inp : Input) (c : CPU) : M CPU := do
  let x := (c.opcode &&& 0x0F00) >>> 8
  match Config.KEY_MAPPING (c.v x) with
  | none => throw PyErr.keyError
  | some k =>
      if inp.pressed k then pure { c with pc := c.pc + 2 } else pure c

/-- Opcode 0xEXA1: CPU.skip_if_key_is_not_pressed. -/
def skip_if_key_is_not_pressed (inp : Input) (c : CPU) : M CPU := do
  let x := (c.opcode &&& 0x0F00) >>> 8
  match Config.KEY_MAPPING (c.v x) with
  | none => throw PyErr.keyError
  | some k =>
      if ¬ inp.pressed k then pure { c with pc := c.pc + 2 } else pure c

/-- Opcode 0xFX07: CPU.move_delay_to_register. -/
def move_delay_to_register (c : CPU) : M CPU := do
  let x := (c.opcode &&& 0x0F00) >>> 8
  let v1 ← vwrite c.v x ((((c.timer_dt : Nat) : Int)))
  pure { c with v := v1 }

/-- Opcode 0xFX0A: CPU.wait_for_keypress.  The source loops on pygame
events until some mapped key is pressed, then stores the first key address
(in table order 0x0..0xF) whose key is down.  The model is restricted to
inputs in which some mapped key is pressed — the loop's termination
condition; otherwise the source never returns and the state is unchanged. -/
def wait_for_keypress (inp : Input) (c : CPU) : M CPU := do
  let x := (c.opcode &&& 0x0F00) >>> 8
  match (List.range 16).find? (fun key_address =>
      match Config.KEY_MAPPING key_address with
      | some k => inp.pressed k
      | none => false) with
  | some key_address => do
      let v1 ← vwrite c.v x ((((key_address : Nat) : Int)))
      pure { c with v := v1 }
  | none => pure c

/-- Opcode 0xFX15: CPU.move_register_to_delay_timer (DT = Vx). -/
def move_register_to_delay_timer (c : CPU) : M CPU := do
  let x := (c.opcode &&& 0x0F00) >>> 8
  pure { c with timer_dt := c.v x }

/-- Opcode 0xFX18: CPU.move_register_to_sound_timer (ST = Vx). -/
def move_register_to_sound_timer (c : CPU) : M CPU := do
  let x := (c.opcode &&& 0x0F00) >>> 8
  pure { c with timer_st := c.v x }

/-- Opcode 0xFX1E: CPU.add_register_to_index (plain int field, no checks). -/
def add_register_to_index (c : CPU) : M CPU := do
  let x := (c.opcode &&& 0x0F00) >>> 8
  pure { c with i := c.i + c.v x }

/-- Opcode 0xFX29: CPU.move_sprite_address_to_index. -/
def move_sprite_address_to_index (c : CPU) : M CPU := do
  let x := (c.opcode &&& 0x0F00) >>> 8
  pure { c with i := c.v x * 5 }

/-- Opcode 0xFX30: CPU.move_extended_sprite_address_to_index. -/
def move_extended_sprite_address_to_index (c : CPU) : M CPU := do
  let x := (c.opcode &&& 0x0F00) >>> 8
  pure { c with i := c.v x * 10 }

/-- Opcode 0xFX33: CPU.store_bcd_in_memory.  Register values are bytes, so
`str(v).zfill(3)` has exactly three characters: v/100, v/10 mod 10, v mod
10. -/
def store_bcd_in_memory (c : CPU) : M CPU := do
  let x := (c.opcode &&& 0x0F00) >>> 8
  let value := c.v x
  let m1 ← mwrite c.memory c.i ((((value / 100) : Nat) : Int))
  let m2 ← mwrite m1 (c.i + 1) ((((value / 10 % 10) : Nat) : Int))
  let m3 ← mwrite m2 (c.i + 2) ((((value % 10) : Nat) : Int))
  pure { c with memory := m3 }

/-- Opcode 0xFX55: CPU.store_registers_in_memory. -/
def store_registers_in_memory (c : CPU) : M CPU := do
  let x := (c.opcode &&& 0x0F00) >>> 8
  rangeFoldM (x + 1) (fun k c => do
    let m1 ← mwrite c.memory (c.i + k) ((((c.v k) : Nat) : Int))
    pure { c with memory := m1 }) c

/-- Opcode 0xFX65: CPU.read_registers_from_memory. -/
def read_registers_from_memory (c : CPU) : M CPU := do
  let x := (c.opcode &&& 0x0F00) >>> 8
  rangeFoldM (x + 1) (fun k c => do
    let byte ← bytearrayRead Config.MAX_MEMORY c.memory (c.i + k)
    let v1 ← vwrite c.v k ((((byte : Nat) : Int)))
    pure { c with v := v1 }) c

/-- self.leading_zero_opcodes_lookup from CPU.__init__: sub-selection on the
low byte for leading-nibble-0 opcodes. -/
def leading_zero_opcodes_lookup (operation : Nat) : Option (CPU → M CPU) :=
  match operation with
  | 0xE0 => some clear_screen
  | 0xEE => some return_from_subroutine
  | 0xFB => some screen_scroll_right
  | 0xFC => some screen_scroll_left
  | 0xFD => some exit
  | 0xFE => some disable_extended_screen
  | 0xFF => some enable_extended_screen
  | _ => none

/-- CPU.execute_leading_zero_opcodes: first the scroll checks on the second
nibble, then the low-byte dictionary lookup (KeyError when absent).  The
scroll wrappers never return normally (they raise TypeError) and the else
branches return `c` itself, so the state reaching the lookup is exactly the
incoming `c`; the two scroll results are therefore bound to `_`. -/
def execute_leading_zero_opcodes (c : CPU) : M CPU := do
  let operation := c.opcode &&& 0x00F0
  let _ ← if operation = 0x00B0 then
      screen_scroll_up (c.opcode &&& 0x000F) c
    else pure c
  let _ ← if operation = 0x00C0 then
      screen_scroll_down (c.opcode &&& 0x000F) c
    else pure c
  let operation2 := c.opcode &&& 0x00FF
  match leading_zero_opcodes_lookup operation2 with
  | some handler => handler c
  | none => throw PyErr.keyError

/-- self.leading_eight_opcodes_lookup from CPU.__init__ (keys 0x0-0x7 and
0xE; anything else raises KeyError). -/
def leading_eight_opcodes_lookup (operation : Nat) : Option (CPU → M CPU) :=
  match operation with
  | 0x0 => some move_register_to_register
  | 0x1 => some register_logical_or_register
  | 0x2 => some register_logical_and_register
  | 0x3 => some register_logical_xor_register
  | 0x4 => some add_register_to_register
  | 0x5 => some subtract_register_from_register
  | 0x6 => some shift_register_right
  | 0x7 => some negative_subtract_register_from_register
  | 0xE => some shift_register_left
  | _ => none

/-- CPU.execute_leading_eight_opcodes. -/
def execute_leading_eight_opcodes (c : CPU) : M CPU :=
  match leading_eight_opcodes_lookup (c.opcode &&& 0x000F) with
  | some handler => handler c
  | none => throw PyErr.keyError

/-- self.leading_e_opcodes_lookup from CPU.__init__. -/
def leading_e_opcodes_lookup (inp : Input) (operation : Nat) :
    Option (CPU → M CPU) :=
  match operation with
  | 0x9E => some (skip_if_key_is_pressed inp)
  | 0xA1 => some (skip_if_key_is_not_pressed inp)
  | _ => none

/-- CPU.execute_leading_e_opcodes. -/
def execute_leading_e_opcodes (inp : Input) (c : CPU) : M CPU :=
  match leading_e_opcodes_lookup inp (c.opcode &&& 0x00FF) with
  | some handler => handler c
  | none => throw PyErr.keyError

/-- self.leading_f_opcodes_lookup from CPU.__init__.  The dictionary is
built, but CPU.__init__ never registers nibble 0xF in opcode_lookup, so
nothing ever consults this table through execute_opcode. -/
def leading_f_opcodes_lookup (inp : Input) (operation : Nat) :
    Option (CPU → M CPU) :=
  match operation with
  | 0x07 => some move_delay_to_register
  | 0x0A => some (wait_for_keypress inp)
  | 0x15 => some move_register_to_delay_timer
  | 0x18 => some move_register_to_sound_timer
  | 0x1E => some add_register_to_index
  | 0x29 => some move_sprite_address_to_index
  | 0x30 => some move_extended_sprite_address_to_index
  | 0x33 => some store_bcd_in_memory
  | 0x55 => some store_registers_in_memory
  | 0x65 => some read_registers_from_memory
  | _ => none

/-- self.opcode_lookup from CPU.__init__: keys 0x0 through 0xE.  Nibble 0xF
has no entry (the leading_f table above is never wired in), so every 0xF***
opcode takes the KeyError path. -/
def opcode_lookup (inp : Input) (nibble : Nat) : Option (CPU → M CPU) :=
  match nibble with
  | 0x0 => some execute_leading_zero_opcodes
  | 0x1 => some jump_to_address
  | 0x2 => some jump_to_subroutine
  | 0x3 => some skip_if_register_equals_value
  | 0x4 => some skip_if_register_not_equals_value
  | 0x5 => some skip_if_register_equal_other_register
  | 0x6 => some move_value_to_register
  | 0x7 => some add_value_to_register
  | 0x8 => some execute_leading_eight_opcodes
  | 0x9 => some skip_if_register_not_equal_other_register
  | 0xA => some move_value_to_index
  | 0xB => some jump_to_address_plus_v_zero
  | 0xC => some (generate_random_number inp)
  | 0xD => some draw_sprite
  | 0xE => some (execute_leading_e_opcodes inp)
  | _ => none

/-- CPU.execute_opcode: fetch the two bytes at pc and pc+1 (big-endian),
advance pc by 2, dispatch on the leading nibble.  The `try`/`except
KeyError` around the dispatch turns any KeyError — a missing nibble or a
missing sub-selector — into UnknownInstructionException carrying the raw
opcode; other exceptions propagate unchanged.  (The Except model discards
the partial state mutations of a raising step; the claims below only
concern whether and which error is signalled.) -/
def execute_opcode (inp : Input) (c : CPU) : Except Err CPU :=
  match bytearrayRead Config.MAX_MEMORY c.memory c.pc,
        bytearrayRead Config.MAX_MEMORY c.memory (c.pc + 1) with
  | Except.ok hi, Except.ok lo =>
      let opcode := (hi <<< 8) ||| lo
      let c := { c with opcode := opcode, pc := c.pc + 2 }
      let four_oldest_bits := (opcode &&& 0xF000) >>> 12
      match (match opcode_lookup inp four_oldest_bits with
             | some handler => handler c
             | none => throw PyErr.keyError : M CPU) with
      | Except.ok c' => Except.ok c'
      | Except.error PyErr.keyError =>
          Except.error (Err.unknownInstruction opcode)
      | Except.error PyErr.indexError => Except.error Err.indexError
      | Except.error PyErr.valueError => Except.error Err.valueError
      | Except.error PyErr.typeError => Except.error Err.typeError
  | _, _ => Except.error Err.indexError

end CPU

/-! Concrete machine states used to evaluate the code on the inputs that
decide the claims.  All of them start from a freshly constructed CPU
(zero memory) attached to a default Screen (NORMAL mode, scale 10). -/

/-- Ambient input with no key pressed and a zero random draw. -/
def inp0 : Input := { rand := 0, pressed := fun _ => false }

/-- State for claim C1: opcode 0xF015 (FX15 with x = 0) at pc = 0x200 and
V0 = 7. -/
def c1state : CPU :=
  { CPU.init (Screen.init Mode.NORMAL 10) with
      memory := fun a => if a = 0x200 then 0xF0
        else if a = 0x201 then 0x15 else 0,
      v := fun r => if r = 0 then 7 else 0,
      pc := 0x200, sp := 0x52, running := true }

/-- State for claim C2: 2NNN call to 0x300 at pc = 0x200, 00EE return at
0x300, sp at its 0x52 base. -/
def c2state : CPU :=
  { CPU.init (Screen.init Mode.NORMAL 10) with
      memory := fun a => if a = 0x200 then 0x23
        else if a = 0x201 then 0x00
        else if a = 0x300 then 0x00
        else if a = 0x301 then 0xEE else 0,
      pc := 0x200, sp := 0x52, running := true }

/-- State for claim C3: opcode 0xD101 (one-row sprite at x-field 1) at
pc = 0x200, sprite byte 0xFF at I = 0x300, NORMAL mode. -/
def c3state : CPU :=
  { CPU.init (Screen.init Mode.NORMAL 10) with
      memory := fun a => if a = 0x200 then 0xD1
        else if a = 0x201 then 0x01
        else if a = 0x300 then 0xFF else 0,
      i := 0x300, pc := 0x200, sp := 0x52, running := true }

/-- State for claim C4: opcode 0xD001 (one-row sprite at the origin) at
both 0x200 and 0x202, sprite byte 0x80 at I = 0x300, blank NORMAL screen. -/
def c4state : CPU :=
  { CPU.init (Screen.init Mode.NORMAL 10) with
      memory := fun a => if a = 0x200 then 0xD0
        else if a = 0x201 then 0x01
        else if a = 0x202 then 0xD0
        else if a = 0x203 then 0x01
        else if a = 0x300 then 0x80 else 0,
      i := 0x300, pc := 0x200, sp := 0x52, running := true }

/-- State for claim C5: opcode 0x800E (8XYE with x = 0) at pc = 0x200 and
V0 = 0x80 (MSB set). -/
def c5state : CPU :=
  { CPU.init (Screen.init Mode.NORMAL 10) with
      memory := fun a => if a = 0x200 then 0x80
        else if a = 0x201 then 0x0E else 0,
      v := fun r => if r = 0 then 0x80 else 0,
      pc := 0x200, sp := 0x52, running := true }

/-- State for claim C6: opcode 0x8015 (8XY5 with x = 0, y = 1) at
pc = 0x200 and V0 = V1 = 5. -/
def c6state : CPU :=
  { CPU.init (Screen.init Mode.NORMAL 10) with
      memory := fun a => if a = 0x200 then 0x80
        else if a = 0x201 then 0x15 else 0,
      v := fun r => if r = 0 then 5 else if r = 1 then 5 else 0,
      pc := 0x200, sp := 0x52, running := true }

/-- State for claim C7: opcode 0x00FF at pc = 0x200 in NORMAL mode, with
pixel (3,4) of the display set. -/
def c7state : CPU :=
  { CPU.init
      { Screen.init Mode.NORMAL 10 with
          bitmap := fun a b => if a = 3 ∧ b = 4 then 1 else 0 } with
      memory := fun a => if a = 0x200 then 0x00
        else if a = 0x201 then 0xFF else 0,
      pc := 0x200, sp := 0x52, running := true }

/-- State for claim C8: reset() applied to a freshly constructed CPU. -/
def c8state : CPU := CPU.reset (CPU.init (Screen.init Mode.NORMAL 10))

/-- Witness state for claim C9: opcode 0x8014 (8XY4 with x = 0, y = 1),
V0 = 200, V1 = 100. -/
def c9wstate : CPU :=
  { CPU.init (Screen.init Mode.NORMAL 10) with
      opcode := 0x8014,
      v := fun r => if r = 0 then 200 else if r = 1 then 100 else 0,
      pc := 0x202, sp := 0x52, running := true }

/-- Witness state for claim C10: opcode 0x00FD at pc = 0x200, with some
non-trivial surrounding state. -/
def c10wstate : CPU :=
  { CPU.init (Screen.init Mode.NORMAL 10) with
      memory := fun a => if a = 0x200 then 0x00
        else if a = 0x201 then 0xFD else 0,
      v := fun r => if r = 3 then 9 else 0,
      i := 0x321, pc := 0x200, sp := 0x52,
      timer_dt := 4, timer_st := 6, running := true }

/-- Reduction of a successful Except bind (do-notation step). -/
theorem exbind_ok {α β : Type} (a : α) (f : α → M β) :
    (Except.ok a : M α) >>= f = f a := rfl

/-- Reduction of a failed Except bind. -/
theorem exbind_error {α β : Type} (e : PyErr) (f : α → M β) :
    (Except.error e : M α) >>= f = Except.error e := rfl

/-- A register-file write with an in-range index and byte value succeeds and
performs a pointwise update. -/
theorem vwrite_ok (f : Nat → Nat) (i : Nat) (val : Int)
    (h1 : i < 16) (h2 : 0 ≤ val) (h3 : val < 256) :
    vwrite f i val =
      Except.ok (fun j => if j = i then val.toNat else f j) := by
  unfold vwrite bytearrayWrite Config.NUMBER_OF_REGISTERS
  rw [if_neg (by omega), if_neg (by omega)]
  rfl

/-- The x field of an opcode is a nibble. -/
theorem opcode_x_lt_16 (op : Nat) : (op &&& 0x0F00) >>> 8 < 16 := by
  have h1 : op &&& 0x0F00 ≤ 0x0F00 := Nat.and_le_right
  have h2 : (op &&& 0x0F00) >>> 8 = (op &&& 0x0F00) / 2 ^ 8 :=
    Nat.shiftRight_eq_div_pow _ _
  omega

/-- Executing the leading-zero group on any state whose latched opcode is
0x00FD runs CPU.exit: only the running flag is cleared. -/
theorem execute_leading_zero_00fd (c : CPU) (hop : c.opcode = 0xFD) :
    CPU.execute_leading_zero_opcodes c =
      Except.ok { c with running := false } := by
  unfold CPU.execute_leading_zero_opcodes
  simp only [hop, show (253 &&& 240 : Nat) = 240 from rfl,
    show (253 &&& 255 : Nat) = 253 from rfl,
    show (253 &&& 15 : Nat) = 13 from rfl]
  simp [CPU.leading_zero_opcodes_lookup, CPU.exit]
  rw [hop]
  rfl

/-- Claim C1: executing opcode 0xFx15 should set DT to Vx without an
unknown-instruction error.  In the code, CPU.__init__ never registers
nibble 0xF in opcode_lookup (leading_f_opcodes_lookup is built but never
wired in), so the step on opcode 0xF015 with V0 = 7 raises
UnknownInstructionException(0xF015) instead of setting DT to 7. -/
theorem C1_fx15_unknown_instruction :
    CPU.execute_opcode inp0 c1state =
      Except.error (Err.unknownInstruction 0xF015) := by
  rfl

/-- Claim C2: a 2NNN call followed by a 00EE return should restore PC to the
instruction after the call (0x202) and SP to its pre-call value (0x52).  In
the code the push writes both bytes to memory[SP] and never increments SP,
so after call-then-return PC is 0 and SP is 0x50. -/
theorem C2_call_return_not_restored :
    ((CPU.execute_opcode inp0 c2state).bind
        (CPU.execute_opcode inp0)).map (fun c => (c.pc, c.sp)) =
      Except.ok (0x0, 0x50) := by
  rfl

/-- Claim C3: the DXYN draw should apply the 8 bits of the sprite byte
most-significant first at columns X + bit_index.  In the code the bit
string is indexed by the screen column x_pos, so drawing a one-row sprite
with x-field 1 reaches pixels[8] and raises IndexError instead of drawing. -/
theorem C3_draw_bit_index_error :
    CPU.execute_opcode inp0 c3state = Except.error Err.indexError := by
  rfl

/-- Claim C4: sprite drawing should XOR and set VF exactly when a pixel is
erased, so drawing sprite 0x80 at (0,0) on a blank screen should leave
VF = 0, and an identical second draw should restore the blank bitmap.  In
the code draw_pixel overwrites and VF is set whenever the sprite bit equals
the current pixel, so the first draw already reports VF = 1 (nothing was
erased) and after the second draw pixel (0,0) is still 1 instead of 0. -/
theorem C4_draw_not_xor :
    (CPU.execute_opcode inp0 c4state).map
        (fun c => (c.v 0xF, c.screen.get_pixel_value 0 0)) =
      Except.ok (1, 1) ∧
    ((CPU.execute_opcode inp0 c4state).bind
        (CPU.execute_opcode inp0)).map
        (fun c => (c.v 0xF, c.screen.get_pixel_value 0 0)) =
      Except.ok (1, 1) := by
  exact ⟨rfl, rfl⟩

/-- Claim C5: opcode 8XYE with Vx = 0x80 should set VF = 1 and Vx = 0.  In
the code VF = (Vx & 0x80) >> 8 = 0 and the unmasked store of Vx << 1 = 256
into the register bytearray raises ValueError, so the step fails. -/
theorem C5_shl_value_error :
    CPU.execute_opcode inp0 c5state = Except.error Err.valueError := by
  rfl

/-- Claim C6: opcode 8XY5 with Vx = Vy = 5 should give Vx = 0 and VF = 1.
In the code the comparison is the strict Vx > Vy, so the equal case takes
the borrow branch and stores Vx - (Vy - 256) = 256, which raises
ValueError. -/
theorem C6_sub_equal_value_error :
    CPU.execute_opcode inp0 c6state = Except.error Err.valueError := by
  rfl

/-- Claim C7: opcode 00FF should resize the display to 128x64 and clear it.
In the code only the two mode flags change: width/height stay at the NORMAL
64x32 (scaled by 10 to 640x320) and the set pixel (3,4) survives. -/
theorem C7_mode_switch_no_resize :
    (CPU.execute_opcode inp0 c7state).map
        (fun c => (c.mode, c.screen.mode, c.screen.width, c.screen.height,
          c.screen.bitmap 3 4)) =
      Except.ok (Mode.EXTENDED, Mode.EXTENDED, 640, 320, 1) := by
  rfl

/-- Claim C8: reset() zeroes the registers, timers and I and sets PC/SP to
their bases as claimed, but it should also install the font (glyph 0 starts
with byte 0xF0 at address 0).  In the code reset never touches memory — no
load_fontset method exists — so memory stays all zero. -/
theorem C8_reset_no_font :
    c8state.pc = 0x200 ∧ c8state.sp = 0x52 ∧ c8state.i = 0 ∧
    c8state.timer_dt = 0 ∧ c8state.timer_st = 0 ∧
    c8state.v 0 = 0 ∧ c8state.v 15 = 0 ∧
    c8state.memory 0 = 0 ∧ c8state.memory 4 = 0 := by
  exact ⟨rfl, rfl, rfl, rfl, rfl, rfl, rfl, rfl, rfl⟩

/-- Claim C9: for all a, b in [0,255], opcode 8XY4 with Vx = a and Vy = b
sets Vx to (a + b) mod 256 and VF to 1 exactly when a + b > 255 (x ranges
over the plain registers V0-VE, VF being the carry destination). -/
theorem C9_add_register_overflow_flag (c : CPU) (a b : Nat)
    (hx : (c.opcode &&& 0x0F00) >>> 8 ≠ 0xF)
    (ha : c.v ((c.opcode &&& 0x0F00) >>> 8) = a)
    (hb : c.v ((c.opcode &&& 0x00F0) >>> 4) = b)
    (ha2 : a < 256) (hb2 : b < 256) :
    ∃ c', CPU.add_register_to_register c = Except.ok c' ∧
      c'.v ((c.opcode &&& 0x0F00) >>> 8) = (a + b) % 256 ∧
      c'.v 0xF = (if a + b > 255 then 1 else 0) := by
  have hx16 : (c.opcode &&& 0x0F00) >>> 8 < 16 := opcode_x_lt_16 c.opcode
  subst ha
  subst hb
  simp only [CPU.add_register_to_register]
  by_cases hc : c.v ((c.opcode &&& 0x0F00) >>> 8) +
      c.v ((c.opcode &&& 0x00F0) >>> 4) > 255
  · rw [if_pos hc, vwrite_ok _ _ _ hx16 (by omega) (by omega)]
    rw [exbind_ok, vwrite_ok _ _ _ (by omega) (by omega) (by omega)]
    rw [exbind_ok]
    refine ⟨_, rfl, ?_, ?_⟩
    · simp only [if_neg hx, if_true]
      omega
    · rw [if_pos hc]
      simp
  · rw [if_neg hc, vwrite_ok _ _ _ hx16 (by omega) (by omega)]
    rw [exbind_ok, vwrite_ok _ _ _ (by omega) (by omega) (by omega)]
    rw [exbind_ok]
    refine ⟨_, rfl, ?_, ?_⟩
    · simp only [if_neg hx, if_true]
      omega
    · rw [if_neg hc]
      simp

/-- Witness for claim C9: opcode 0x8014 with V0 = 200, V1 = 100 gives
V0 = 44 and VF = 1. -/
theorem C9_add_register_overflow_flag_witness :
    ((c9wstate.opcode &&& 0x0F00) >>> 8 ≠ 0xF ∧
      c9wstate.v ((c9wstate.opcode &&& 0x0F00) >>> 8) = 200 ∧
      c9wstate.v ((c9wstate.opcode &&& 0x00F0) >>> 4) = 100 ∧
      200 < 256 ∧ 100 < 256) ∧
    (∃ c', CPU.add_register_to_register c9wstate = Except.ok c' ∧
      c'.v ((c9wstate.opcode &&& 0x0F00) >>> 8) = (200 + 100) % 256 ∧
      c'.v 0xF = (if 200 + 100 > 255 then 1 else 0)) :=
  ⟨⟨by decide, by rfl, by rfl, by decide, by decide⟩,
    C9_add_register_overflow_flag c9wstate 200 100 (by decide) (by rfl)
      (by rfl) (by decide) (by decide)⟩

/-- Claim C10: executing opcode 0x00FD only clears the running flag:
memory, registers, I, SP, both timers, the mode and the display bitmap are
untouched and PC advances by exactly the fetch increment 2. -/
theorem C10_exit_frame (inp : Input) (c : CPU)
    (hpc : c.pc + 1 < 4096)
    (h0 : c.memory c.pc = 0x00)
    (h1 : c.memory (c.pc + 1) = 0xFD) :
    ∃ c', CPU.execute_opcode inp c = Except.ok c' ∧
      c'.running = false ∧ c'.pc = c.pc + 2 ∧
      c'.memory = c.memory ∧ c'.v = c.v ∧ c'.i = c.i ∧ c'.sp = c.sp ∧
      c'.timer_dt = c.timer_dt ∧ c'.timer_st = c.timer_st ∧
      c'.mode = c.mode ∧ c'.screen = c.screen := by
  have e0 : bytearrayRead Config.MAX_MEMORY c.memory c.pc =
      Except.ok 0x00 := by
    unfold bytearrayRead Config.MAX_MEMORY
    rw [if_pos (by omega), h0]
    rfl
  have e1 : bytearrayRead Config.MAX_MEMORY c.memory (c.pc + 1) =
      Except.ok 0xFD := by
    unfold bytearrayRead Config.MAX_MEMORY
    rw [if_pos (by omega), h1]
    rfl
  refine ⟨{ c with
              opcode := (0x00 <<< 8) ||| 0xFD,
              pc := c.pc + 2,
              running := false },
    ?_, rfl, rfl, rfl, rfl, rfl, rfl, rfl, rfl, rfl, rfl⟩
  unfold CPU.execute_opcode
  rw [e0, e1]
  show (match (CPU.execute_leading_zero_opcodes
        { c with opcode := (0x00 <<< 8) ||| 0xFD, pc := c.pc + 2 } : M CPU)
      with
    | Except.ok c' => Except.ok c'
    | Except.error PyErr.keyError =>
        Except.error (Err.unknownInstruction ((0x00 <<< 8) ||| 0xFD))
    | Except.error PyErr.indexError => Except.error Err.indexError
    | Except.error PyErr.valueError => Except.error Err.valueError
    | Except.error PyErr.typeError => Except.error Err.typeError) = _
  rw [execute_leading_zero_00fd _ (by rfl)]

/-- Witness for claim C10: a concrete state about to execute 0x00FD. -/
theorem C10_exit_frame_witness :
    (c10wstate.pc + 1 < 4096 ∧ c10wstate.memory c10wstate.pc = 0x00 ∧
      c10wstate.memory (c10wstate.pc + 1) = 0xFD) ∧
    (∃ c', CPU.execute_opcode inp0 c10wstate = Except.ok c' ∧
      c'.running = false ∧ c'.pc = c10wstate.pc + 2 ∧
      c'.memory = c10wstate.memory ∧ c'.v = c10wstate.v ∧
      c'.i = c10wstate.i ∧ c'.sp = c10wstate.sp ∧
      c'.timer_dt = c10wstate.timer_dt ∧
      c'.timer_st = c10wstate.timer_st ∧
      c'.mode = c10wstate.mode ∧ c'.screen = c10wstate.screen) :=
  ⟨⟨by decide, by rfl, by rfl⟩,
    C10_exit_frame inp0 c10wstate (by decide) (by rfl) (by rfl)⟩
